import Mathlib

/-!
# AgentBTO — verification of the budget/affordability core and the
frontend orchestration logic

This file gives a shallow embedding of:

* the budget calculator and affordability comparator contract
  (`computeBudget`, `checkAffordability`) — the implementing backend code
  (`backend/main.py`, `agents/bto_budget_estimator.py`,
  `agents/bto_affordability_agent.py`) is not part of the frontend sources,
  so these are modelled from the specification's words;
* the frontend request orchestration of `AffordabilityCard.tsx` and the
  results page (budget → cost-estimates → affordability);
* the auto-run guard state machine of `AffordabilityCard.tsx`;
* `normalizeFlatTypes` from the Home map component.

Currency amounts are modelled as rationals (ℚ); a JSON numeric field that
may be missing or non-numeric is modelled as `Option ℚ` (`none` = missing
or non-numeric).
-/

namespace AgentBTO

/-! ## Budget calculator (modelled from the spec) -/

/-- Modelled from the spec: `BudgetInput` of `POST /budget`
(`backend/main.py`, `agents/bto_budget_estimator.py` are not under the
frontend sources).  The three required numeric fields are `Option ℚ`
(`none` = missing or non-numeric in the request body); the optional
policy fields carry the spec's defaults (`annual_rate` 0.03,
`tenure_years` 25, `retain_oa_amount` 20000). -/
structure BudgetInput where
  household_income : Option ℚ
  cash_savings : Option ℚ
  cpf_savings : Option ℚ
  annual_rate : ℚ := 3/100
  tenure_years : ℕ := 25
  retain_oa_amount : ℚ := 20000
deriving DecidableEq

/-- Modelled from the spec: `BudgetResult` returned by `POST /budget`. -/
structure BudgetResult where
  max_hdb_loan : ℚ
  total_budget : ℚ
  cpf_used_in_budget : ℚ
  retained_oa : ℚ
deriving DecidableEq

/-- Present-value factor of a fixed-rate annuity of 1 per period over `n`
periods at periodic rate `i`: `(1 - (1+i)⁻ⁿ)/i`, degenerating to `n` at
rate zero. -/
def annuityFactor (i : ℚ) (n : ℕ) : ℚ :=
  if i = 0 then (n : ℚ) else (1 - 1/(1+i)^n)/i

/-- Modelled from the spec: maximum serviceable HDB loan — a fixed
proportion `msr` of monthly income, compounded monthly over
`tenure_years × 12` periods at `annual_rate / 12`.  The spec leaves the
exact income proportion open, so it is a parameter `msr`. -/
def max_hdb_loan (msr income annual_rate : ℚ) (tenure_years : ℕ) : ℚ :=
  (msr * income) * annuityFactor (annual_rate/12) (tenure_years * 12)

/-- Modelled from the spec: `computeBudget(BudgetInput) → BudgetResult`,
failing with an `InvalidInput` error on a missing/non-numeric required
field or any negative numeric field.  CPF usable is
`max(cpf_savings − retain_oa_amount, 0)` and the total budget is
`cash_savings + CPF usable + max loan`. -/
def computeBudget (msr : ℚ) (inp : BudgetInput) : Except String BudgetResult :=
  match inp.household_income, inp.cash_savings, inp.cpf_savings with
  | some income, some cash, some cpf =>
    if income < 0 ∨ cash < 0 ∨ cpf < 0 ∨ inp.annual_rate < 0 ∨ inp.retain_oa_amount < 0 then
      Except.error "InvalidInput"
    else
      let loan := max_hdb_loan msr income inp.annual_rate inp.tenure_years
      let cpfUsed := max (cpf - inp.retain_oa_amount) 0
      Except.ok
        { max_hdb_loan := loan
          total_budget := cash + cpfUsed + loan
          cpf_used_in_budget := cpfUsed
          retained_oa := inp.retain_oa_amount }
  | _, _, _ => Except.error "InvalidInput"

/-! ## Affordability comparator (modelled from the spec) -/

/-- Modelled from the spec: one listing of `POST /affordability`'s `btos`
collection; `price` is `none` when missing or non-numeric. -/
structure ListingIn where
  name : String
  price : Option ℚ
deriving DecidableEq

/-- Modelled from the spec: per-listing affordability verdict. -/
structure AffordabilityResult where
  name : String
  price : ℚ
  affordability_status : String
  shortfall : ℚ
deriving DecidableEq

/-- Modelled from the spec: the verdict for a single listing —
`shortfall = max(price − total_budget, 0)`, status `"Affordable"` when the
shortfall is 0 and `"Not Affordable"` otherwise; a missing/non-numeric
price fails with an `InvalidInput` error naming the listing. -/
def assessListing (total_budget : ℚ) (l : ListingIn) : Except String AffordabilityResult :=
  match l.price with
  | none => Except.error ("InvalidInput: " ++ l.name)
  | some p =>
    let s := max (p - total_budget) 0
    Except.ok
      { name := l.name
        price := p
        affordability_status := if s = 0 then "Affordable" else "Not Affordable"
        shortfall := s }

/-- Modelled from the spec:
`checkAffordability(total_budget, listings) → Array<AffordabilityResult>`,
evaluating every listing independently; failures are scoped to the
offending listing (partial-failure semantics). -/
def checkAffordability (total_budget : ℚ) (listings : List ListingIn) :
    List (Except String AffordabilityResult) :=
  listings.map (assessListing total_budget)

/-! ## Frontend orchestration (`AffordabilityCard.tsx`, `Results`)

The frontend `checkAffordability` callback of `AffordabilityCard.tsx` is a
request orchestrator: it validates its inputs, issues a `/cost_estimates`
request, turns the response into the listing set with numeric estimated
prices, and only then issues the `/affordability` request.  We model the
network as given response data and record the issued requests as a trace. -/

/-- A BTO selection of `AffordabilityCard.tsx` (`SelectedBTO`, without the
unused optional price). -/
structure SelectedBTO where
  project : String
  flatType : String
deriving DecidableEq

/-- One entry of the `/cost_estimates` response
(`estJson.results` values); `estimatedPrice` is `none` when the field is
absent or not a number. -/
structure Estimate where
  projectLocation : String
  flatType : String
  estimatedPrice : Option ℚ
deriving DecidableEq

/-- A listing sent to `/affordability` by the frontend
(`btosWithPrices` entries). -/
structure BtoPrice where
  name : String
  flatType : String
  price : ℚ
deriving DecidableEq

/-- `Object.values(estJson.results).filter(r => typeof r.estimatedPrice
=== 'number').map(...)` from `AffordabilityCard.tsx`: keep exactly the
estimates whose price is numeric. -/
def numericEstimates (es : List Estimate) : List BtoPrice :=
  es.filterMap fun e =>
    e.estimatedPrice.map fun p =>
      { name := e.projectLocation, flatType := e.flatType, price := p }

/-- JavaScript truthiness of `totalBudget : number | undefined`:
falsy iff `undefined` or `0`. -/
def jsTruthyNum : Option ℚ → Bool
  | none => false
  | some x => !(x == 0)

/-- The component state touched by the frontend `checkAffordability`
callback: `isLoading`, `error` and `results`. -/
structure CardState where
  isLoading : Bool
  error : Option String
  results : Option (List AffordabilityResult)
deriving DecidableEq

/-- The network requests the frontend issues, in order. -/
inductive ReqEvent where
  | budgetReq : ReqEvent
  | costEstimatesReq : List SelectedBTO → ReqEvent
  | affordabilityReq : ℚ → List BtoPrice → ReqEvent
deriving DecidableEq

/-- The frontend `checkAffordability` callback of `AffordabilityCard.tsx`
(lines 179–245): guard on a missing/zero budget, guard on an empty BTO
selection, then issue `/cost_estimates`; from its response `estimates`
keep the numerically priced listings; if none remain, fail; otherwise
issue `/affordability` with exactly those listings and store the response
`serverResults`.  Returns the new component state and the ordered request
trace. -/
def checkAffordabilityUI (totalBudget : Option ℚ) (selectedBTOs : List SelectedBTO)
    (estimates : List Estimate) (serverResults : List AffordabilityResult)
    (st : CardState) : CardState × List ReqEvent :=
  if jsTruthyNum totalBudget = false then
    ({ st with error := some "Please calculate your budget first before checking affordability." }, [])
  else if selectedBTOs.isEmpty then
    ({ st with error := some "Please add at least one BTO project to check affordability." }, [])
  else
    let withPrices := numericEstimates estimates
    if withPrices.isEmpty then
      ({ isLoading := false
         error := some "Failed to check affordability. Please try again."
         results := none },
       [ReqEvent.costEstimatesReq selectedBTOs])
    else
      ({ isLoading := false, error := none, results := some serverResults },
       [ReqEvent.costEstimatesReq selectedBTOs,
        ReqEvent.affordabilityReq (totalBudget.getD 0) withPrices])

/-- The auto-run effect of `AffordabilityCard.tsx` (lines 248–268): it
invokes the `checkAffordability` callback only when
`totalBudget && totalBudget > 0`, the selection is non-empty, the check
has not auto-run yet and no run is in flight. -/
def autoRunRequests (budgetResponse : Option ℚ) (hasAutoRun loading : Bool)
    (selectedBTOs : List SelectedBTO) (estimates : List Estimate)
    (serverResults : List AffordabilityResult) (st : CardState) : List ReqEvent :=
  match budgetResponse with
  | none => []
  | some b =>
    if 0 < b ∧ selectedBTOs.isEmpty = false ∧ hasAutoRun = false ∧ loading = false then
      (checkAffordabilityUI (some b) selectedBTOs estimates serverResults st).2
    else []

/-- The results page (`Results`, mount effect): when the navigation state
carries budget form data, a `/budget` request is issued on mount, and the
affordability card only ever sees a `totalBudget` coming from that
request's response (`budgetResponse`); without the budget form no budget
is ever computed, so the card sees `none`. -/
def resultsPageTrace (hasBudgetForm : Bool) (budgetResponse : Option ℚ)
    (hasAutoRun loading : Bool) (selectedBTOs : List SelectedBTO)
    (estimates : List Estimate) (serverResults : List AffordabilityResult)
    (st : CardState) : List ReqEvent :=
  if hasBudgetForm then
    ReqEvent.budgetReq ::
      autoRunRequests budgetResponse hasAutoRun loading selectedBTOs estimates serverResults st
  else
    autoRunRequests none hasAutoRun loading selectedBTOs estimates serverResults st

/-! ## The auto-run guard state machine of `AffordabilityCard.tsx`

State relevant to the auto-run guard, and the events that update it:
the `[totalBudget]` effect (lines 119–123) resets `results`, `error` and
`hasAutoRun`; the auto-run effect (lines 248–268) sets `hasAutoRun` before
scheduling the check; adding/removing BTOs and a finishing run never touch
`hasAutoRun`.  `fired` is a ghost counter of auto-triggered invocations. -/

/-- Component state of `AffordabilityCard` as seen by the auto-run guard,
plus the ghost counter `fired`. -/
structure CardMachine where
  totalBudget : Option ℚ
  selectedBTOs : List SelectedBTO
  hasAutoRun : Bool
  loading : Bool
  error : Option String
  results : Option (List AffordabilityResult)
  fired : ℕ
deriving DecidableEq

/-- Events of the `AffordabilityCard` component. -/
inductive CardEvent where
  | budgetChanged : Option ℚ → CardEvent
  | autoRunTick : CardEvent
  | addBTO : SelectedBTO → CardEvent
  | removeBTO : ℕ → CardEvent
  | finishLoad : CardEvent
deriving DecidableEq

/-- Whether an event is a change of `totalBudget`. -/
def isBudgetChange : CardEvent → Bool
  | CardEvent.budgetChanged _ => true
  | _ => false

/-- The auto-run condition of lines 259:
`totalBudget && totalBudget > 0 && selectedBTOs.length > 0 && !hasAutoRun
&& !isLoading`. -/
def autoRunCond (s : CardMachine) : Bool :=
  (match s.totalBudget with
   | none => false
   | some b => decide (0 < b)) &&
    !s.selectedBTOs.isEmpty && !s.hasAutoRun && !s.loading

/-- One step of the component: the `[totalBudget]` effect, the auto-run
effect, `addBTO`, `removeBTO`, and a run completing. -/
def cardStep (s : CardMachine) : CardEvent → CardMachine
  | CardEvent.budgetChanged b =>
    { s with totalBudget := b, results := none, error := none, hasAutoRun := false }
  | CardEvent.autoRunTick =>
    if autoRunCond s then { s with hasAutoRun := true, fired := s.fired + 1 } else s
  | CardEvent.addBTO x =>
    { s with selectedBTOs := s.selectedBTOs ++ [x], error := none }
  | CardEvent.removeBTO i =>
    { s with selectedBTOs := s.selectedBTOs.eraseIdx i, results := none }
  | CardEvent.finishLoad =>
    { s with loading := false }

/-- Run a sequence of events. -/
def cardRun (s : CardMachine) : List CardEvent → CardMachine
  | [] => s
  | e :: es => cardRun (cardStep s e) es

/-! ## `normalizeFlatTypes` (Home map component, part_007 lines 49–66) -/

/-- The flat types the final filter of `normalizeFlatTypes` admits. -/
def allowedFlatTypes : List String :=
  ["2-Room Flexi", "3-Room", "4-Room", "5-Room", "Executive"]

/-- The characters of the literal `room` matched by the flat-type
regexes. -/
def roomChars : List Char := ['r', 'o', 'o', 'm']

/-- The characters of the literal matched by `/executive/i`. -/
def executiveChars : List Char :=
  ['e', 'x', 'e', 'c', 'u', 't', 'i', 'v', 'e']

/-- `startsWithChars pat l` is true when `pat` is an initial segment of
`l`. -/
def startsWithChars : List Char → List Char → Bool
  | [], _ => true
  | _ :: _, [] => false
  | p :: ps, c :: cs => p == c && startsWithChars ps cs

/-- `containsChars pat l`: some suffix of `l` starts with `pat`
(substring test). -/
def containsChars (pat : List Char) : List Char → Bool
  | [] => pat.isEmpty
  | c :: cs => startsWithChars pat (c :: cs) || containsChars pat cs

/-- Case-insensitive matching: lowercase every character. -/
def lowerChars (l : List Char) : List Char := l.map Char.toLower

/-- `String.prototype.split(",")`: cut the character sequence at every
comma (adjacent commas give empty fields). -/
def splitOnComma : List Char → List (List Char)
  | [] => [[]]
  | c :: cs =>
    let r := splitOnComma cs
    if c = ',' then [] :: r
    else
      match r with
      | [] => [[c]]
      | h :: t => (c :: h) :: t

/-- Drop leading whitespace. -/
def dropLeadingWs : List Char → List Char
  | [] => []
  | c :: cs => if c.isWhitespace then dropLeadingWs cs else c :: cs

/-- `String.prototype.trim()`: drop leading and trailing whitespace. -/
def trimChars (l : List Char) : List Char :=
  ((dropLeadingWs ((dropLeadingWs l).reverse)).reverse)

/-- The test `/^d[-\s]?room/i` on a token: after lowercasing, the digit
`d`, an optional hyphen or whitespace, then `room`.  (JavaScript's `\s`
is modelled by `Char.isWhitespace`.) -/
def roomDigitTest (d : Char) (t : String) : Bool :=
  match lowerChars t.toList with
  | [] => false
  | c :: rest =>
    c == d &&
      (startsWithChars roomChars rest ||
        (match rest with
         | [] => false
         | sep :: rest2 =>
           (sep == '-' || sep.isWhitespace) && startsWithChars roomChars rest2))

/-- The test `/executive/i` on a token. -/
def executiveTest (t : String) : Bool :=
  containsChars executiveChars (lowerChars t.toList)

/-- The per-token mapping of `normalizeFlatTypes`: canonicalize room
counts and `Executive`, otherwise keep the token unchanged. -/
def normToken (t : String) : String :=
  if roomDigitTest '2' t then "2-Room Flexi"
  else if roomDigitTest '3' t then "3-Room"
  else if roomDigitTest '4' t then "4-Room"
  else if roomDigitTest '5' t then "5-Room"
  else if executiveTest t then "Executive"
  else t

/-- `.filter((t, i, a) => a.indexOf(t) === i)`: keep an element exactly
when its index is the index of its first occurrence. -/
def jsDedup (l : List String) : List String :=
  (l.enum.filter (fun p => l.indexOf p.2 == p.1)).map Prod.snd

/-- `normalizeFlatTypes` of the Home map component: split on commas, trim,
canonicalize each token, drop duplicate elements (first occurrence wins),
and keep only the recognised flat types; `undefined` and the empty string
yield `[]`. -/
def normalizeFlatTypes : Option String → List String
  | none => []
  | some s =>
    if s = "" then []
    else
      let toks := (splitOnComma s.toList).map fun cs => String.mk (trimChars cs)
      (jsDedup (toks.map normToken)).filter
        (fun t => allowedFlatTypes.contains t)

/-! ## Helper lemmas -/

/-- On all-numeric, non-negative inputs `computeBudget` reduces to the
explicit result record. -/
theorem computeBudget_ok (msr income cash cpf rate retain : ℚ) (years : ℕ)
    (h : ¬(income < 0 ∨ cash < 0 ∨ cpf < 0 ∨ rate < 0 ∨ retain < 0)) :
    computeBudget msr
        { household_income := some income, cash_savings := some cash,
          cpf_savings := some cpf, annual_rate := rate, tenure_years := years,
          retain_oa_amount := retain } =
      Except.ok
        { max_hdb_loan := max_hdb_loan msr income rate years
          total_budget := cash + max (cpf - retain) 0 + max_hdb_loan msr income rate years
          cpf_used_in_budget := max (cpf - retain) 0
          retained_oa := retain } := by
  unfold computeBudget
  simp only
  rw [if_neg h]

/-- A zero income yields a zero maximum loan, whatever the policy
proportion, rate and tenure. -/
theorem max_hdb_loan_zero_income (msr rate : ℚ) (years : ℕ) :
    max_hdb_loan msr 0 rate years = 0 := by
  simp [max_hdb_loan]

/-! ## Claims -/

/-- C1: for every `BudgetInput` with non-negative numeric fields,
`computeBudget` succeeds with `cpf_used_in_budget =
max(cpf_savings − retain_oa_amount, 0)` and `total_budget = cash_savings
+ cpf_used_in_budget + max_hdb_loan` (exact equality); in particular
`cpf_used_in_budget = 0` whenever `cpf_savings ≤ retain_oa_amount`, and
for income 9000, cash 50000, CPF 120000 with the default rate, tenure and
retained amount, `cpf_used_in_budget = 100000` and
`total_budget = 50000 + 100000 + max_hdb_loan(9000, 0.03, 25)`. -/
theorem computeBudget_invariants (msr income cash cpf rate retain : ℚ) (years : ℕ)
    (h1 : 0 ≤ income) (h2 : 0 ≤ cash) (h3 : 0 ≤ cpf) (h4 : 0 ≤ rate) (h5 : 0 ≤ retain) :
    (∃ r : BudgetResult,
      computeBudget msr
          { household_income := some income, cash_savings := some cash,
            cpf_savings := some cpf, annual_rate := rate, tenure_years := years,
            retain_oa_amount := retain } = Except.ok r ∧
        r.cpf_used_in_budget = max (cpf - retain) 0 ∧
        r.total_budget = cash + r.cpf_used_in_budget + r.max_hdb_loan ∧
        (cpf ≤ retain → r.cpf_used_in_budget = 0)) ∧
    ∃ r : BudgetResult,
      computeBudget msr
          { household_income := some 9000, cash_savings := some 50000,
            cpf_savings := some 120000 } = Except.ok r ∧
        r.cpf_used_in_budget = 100000 ∧
        r.total_budget = 50000 + 100000 + max_hdb_loan msr 9000 (3/100) 25 := by
  constructor
  · have h : ¬(income < 0 ∨ cash < 0 ∨ cpf < 0 ∨ rate < 0 ∨ retain < 0) := by
      push_neg
      exact ⟨h1, h2, h3, h4, h5⟩
    refine ⟨_, computeBudget_ok msr income cash cpf rate retain years h, rfl, rfl, ?_⟩
    intro hle
    simpa using max_eq_right (sub_nonpos.mpr hle)
  · have h : ¬((9000 : ℚ) < 0 ∨ (50000 : ℚ) < 0 ∨ (120000 : ℚ) < 0 ∨
        (3/100 : ℚ) < 0 ∨ (20000 : ℚ) < 0) := by norm_num
    refine ⟨_, computeBudget_ok msr 9000 50000 120000 (3/100) 20000 25 h, ?_, ?_⟩
    · show max ((120000 : ℚ) - 20000) 0 = 100000
      norm_num
    · show (50000 : ℚ) + max ((120000 : ℚ) - 20000) 0 + max_hdb_loan msr 9000 (3/100) 25 =
        50000 + 100000 + max_hdb_loan msr 9000 (3/100) 25
      norm_num

/-- Witness for C1 at a concrete input. -/
theorem computeBudget_invariants_witness :
    (∃ r : BudgetResult,
      computeBudget (3/10)
          { household_income := some 9000, cash_savings := some 50000,
            cpf_savings := some 120000, annual_rate := 3/100, tenure_years := 25,
            retain_oa_amount := 20000 } = Except.ok r ∧
        r.cpf_used_in_budget = max ((120000 : ℚ) - 20000) 0 ∧
        r.total_budget = 50000 + r.cpf_used_in_budget + r.max_hdb_loan ∧
        ((120000 : ℚ) ≤ 20000 → r.cpf_used_in_budget = 0)) ∧
    ∃ r : BudgetResult,
      computeBudget (3/10)
          { household_income := some 9000, cash_savings := some 50000,
            cpf_savings := some 120000 } = Except.ok r ∧
        r.cpf_used_in_budget = 100000 ∧
        r.total_budget = 50000 + 100000 + max_hdb_loan (3/10) 9000 (3/100) 25 :=
  computeBudget_invariants (3/10) 9000 50000 120000 (3/100) 20000 25
    (by norm_num) (by norm_num) (by norm_num) (by norm_num) (by norm_num)

/-- C5: `computeBudget` fails with an `InvalidInput` error whenever a
required numeric field is missing/non-numeric or any numeric field is
negative, and a zero household income succeeds with a zero maximum
loan. -/
theorem computeBudget_invalid_input_and_zero_income :
    (∀ (msr : ℚ) (inp : BudgetInput),
      (inp.household_income = none ∨ inp.cash_savings = none ∨ inp.cpf_savings = none) →
      computeBudget msr inp = Except.error "InvalidInput") ∧
    (∀ (msr income cash cpf rate retain : ℚ) (years : ℕ),
      (income < 0 ∨ cash < 0 ∨ cpf < 0 ∨ rate < 0 ∨ retain < 0) →
      computeBudget msr
          { household_income := some income, cash_savings := some cash,
            cpf_savings := some cpf, annual_rate := rate, tenure_years := years,
            retain_oa_amount := retain } = Except.error "InvalidInput") ∧
    ∀ (msr cash cpf rate retain : ℚ) (years : ℕ),
      0 ≤ cash → 0 ≤ cpf → 0 ≤ rate → 0 ≤ retain →
      ∃ r : BudgetResult,
        computeBudget msr
            { household_income := some 0, cash_savings := some cash,
              cpf_savings := some cpf, annual_rate := rate, tenure_years := years,
              retain_oa_amount := retain } = Except.ok r ∧
          r.max_hdb_loan = 0 := by
  refine ⟨?_, ?_, ?_⟩
  · rintro msr ⟨hi, hc, hp, rate, years, retain⟩ h
    cases hi <;> cases hc <;> cases hp <;> simp_all [computeBudget]
  · intro msr income cash cpf rate retain years h
    unfold computeBudget
    simp only
    rw [if_pos h]
  · intro msr cash cpf rate retain years h2 h3 h4 h5
    have h : ¬((0 : ℚ) < 0 ∨ cash < 0 ∨ cpf < 0 ∨ rate < 0 ∨ retain < 0) := by
      push_neg
      exact ⟨le_refl 0, h2, h3, h4, h5⟩
    exact ⟨_, computeBudget_ok msr 0 cash cpf rate retain years h,
      max_hdb_loan_zero_income msr rate years⟩

/-- Witness for C5 at concrete inputs. -/
theorem computeBudget_invalid_input_and_zero_income_witness :
    computeBudget (3/10)
        { household_income := none, cash_savings := some 1,
          cpf_savings := some 1 } = Except.error "InvalidInput" ∧
    computeBudget (3/10)
        { household_income := some (-1), cash_savings := some 0,
          cpf_savings := some 0, annual_rate := 3/100, tenure_years := 25,
          retain_oa_amount := 20000 } = Except.error "InvalidInput" ∧
    ∃ r : BudgetResult,
      computeBudget (3/10)
          { household_income := some 0, cash_savings := some 1000,
            cpf_savings := some 5000, annual_rate := 3/100, tenure_years := 25,
            retain_oa_amount := 20000 } = Except.ok r ∧
        r.max_hdb_loan = 0 :=
  ⟨computeBudget_invalid_input_and_zero_income.1 (3/10)
      { household_income := none, cash_savings := some 1, cpf_savings := some 1 }
      (Or.inl rfl),
   computeBudget_invalid_input_and_zero_income.2.1 (3/10) (-1) 0 0 (3/100) 20000 25
      (Or.inl (by norm_num)),
   computeBudget_invalid_input_and_zero_income.2.2 (3/10) 1000 5000 (3/100) 20000 25
      (by norm_num) (by norm_num) (by norm_num) (by norm_num)⟩

/-- C2: for every listing and total budget the verdict satisfies
`shortfall = max(price − total_budget, 0)` and the status is
`"Affordable"` iff the shortfall is 0; hence price ≤ budget gives
`Affordable` with shortfall 0 and price > budget gives a shortfall of
exactly `price − total_budget`; instance: budget 500000 with prices
450000 and 520000. -/
theorem assessListing_spec (b p : ℚ) (nm : String) :
    (∃ r : AffordabilityResult,
      assessListing b { name := nm, price := some p } = Except.ok r ∧
        r.shortfall = max (p - b) 0 ∧
        (r.affordability_status = "Affordable" ↔ r.shortfall = 0) ∧
        (p ≤ b → r.affordability_status = "Affordable" ∧ r.shortfall = 0) ∧
        (b < p → r.shortfall = p - b)) ∧
    checkAffordability 500000
        [{ name := "A", price := some 450000 }, { name := "B", price := some 520000 }] =
      [Except.ok
        { name := "A"
          price := 450000
          affordability_status := "Affordable"
          shortfall := 0 },
       Except.ok
        { name := "B"
          price := 520000
          affordability_status := "Not Affordable"
          shortfall := 20000 }] := by
  constructor
  · refine ⟨{ name := nm
              price := p
              affordability_status :=
                if max (p - b) 0 = 0 then "Affordable" else "Not Affordable"
              shortfall := max (p - b) 0 }, rfl, rfl, ?_, ?_, ?_⟩
    · by_cases h : max (p - b) 0 = 0 <;> simp [h]
    · intro h
      have hz : max (p - b) 0 = 0 := max_eq_right (sub_nonpos.mpr h)
      simp [hz]
    · intro h
      show max (p - b) 0 = p - b
      exact max_eq_left (le_of_lt (sub_pos.mpr h))
  · have e1 : max ((450000 : ℚ) - 500000) 0 = 0 :=
      max_eq_right (by norm_num)
    have e2 : max ((520000 : ℚ) - 500000) 0 = 20000 := by
      rw [max_eq_left (by norm_num : (0 : ℚ) ≤ 520000 - 500000)]
      norm_num
    simp [checkAffordability, assessListing, e1, e2]

/-- Witness for C2 at a concrete listing. -/
theorem assessListing_spec_witness :
    (∃ r : AffordabilityResult,
      assessListing 500000 { name := "A", price := some 450000 } = Except.ok r ∧
        r.shortfall = max ((450000 : ℚ) - 500000) 0 ∧
        (r.affordability_status = "Affordable" ↔ r.shortfall = 0) ∧
        ((450000 : ℚ) ≤ 500000 → r.affordability_status = "Affordable" ∧ r.shortfall = 0) ∧
        ((500000 : ℚ) < 450000 → r.shortfall = 450000 - 500000)) ∧
    checkAffordability 500000
        [{ name := "A", price := some 450000 }, { name := "B", price := some 520000 }] =
      [Except.ok
        { name := "A"
          price := 450000
          affordability_status := "Affordable"
          shortfall := 0 },
       Except.ok
        { name := "B"
          price := 520000
          affordability_status := "Not Affordable"
          shortfall := 20000 }] :=
  assessListing_spec 500000 450000 "A"

/-- C3: in a batch containing a listing with a missing/non-numeric price,
`checkAffordability` fails with an `InvalidInput` error scoped to that
listing only, and every other (validly priced) listing of the same batch
still produces an `AffordabilityResult`. -/
theorem checkAffordability_partial_failure (b : ℚ) (L : List ListingIn) (i j : ℕ)
    (hi : i < L.length) (hi2 : i < (checkAffordability b L).length)
    (hj : j < L.length) (hj2 : j < (checkAffordability b L).length)
    (hbad : (L.get ⟨i, hi⟩).price = none)
    (q : ℚ) (hgood : (L.get ⟨j, hj⟩).price = some q) :
    (checkAffordability b L).get ⟨i, hi2⟩ =
      Except.error ("InvalidInput: " ++ (L.get ⟨i, hi⟩).name) ∧
    ∃ r : AffordabilityResult,
      (checkAffordability b L).get ⟨j, hj2⟩ = Except.ok r ∧
        r.name = (L.get ⟨j, hj⟩).name ∧ r.price = q ∧
        r.shortfall = max (q - b) 0 := by
  constructor
  · simp only [checkAffordability, List.get_eq_getElem, List.getElem_map]
    simp only [checkAffordability, List.length_map] at hi2
    rw [show L[i] = L.get ⟨i, hi⟩ from rfl]
    unfold assessListing
    rw [hbad]
  · simp only [checkAffordability, List.get_eq_getElem, List.getElem_map]
    simp only [checkAffordability, List.length_map] at hj2
    rw [show L[j] = L.get ⟨j, hj⟩ from rfl]
    unfold assessListing
    rw [hgood]
    exact ⟨_, rfl, rfl, rfl, rfl⟩

/-- Witness for C3 on a concrete two-listing batch. -/
theorem checkAffordability_partial_failure_witness :
    (checkAffordability 500000
        [{ name := "A", price := none }, { name := "B", price := some 450000 }]).get
      ⟨0, by simp [checkAffordability]⟩ =
      Except.error ("InvalidInput: " ++
        (([{ name := "A", price := none },
           { name := "B", price := some 450000 }] : List ListingIn).get
          ⟨0, by simp⟩).name) ∧
    ∃ r : AffordabilityResult,
      (checkAffordability 500000
          [{ name := "A", price := none }, { name := "B", price := some 450000 }]).get
        ⟨1, by simp [checkAffordability]⟩ = Except.ok r ∧
        r.name = (([{ name := "A", price := none },
            { name := "B", price := some 450000 }] : List ListingIn).get ⟨1, by simp⟩).name ∧
        r.price = 450000 ∧
        r.shortfall = max ((450000 : ℚ) - 500000) 0 :=
  checkAffordability_partial_failure 500000
    [{ name := "A", price := none }, { name := "B", price := some 450000 }]
    0 1 (by simp) (by simp [checkAffordability]) (by simp) (by simp [checkAffordability])
    rfl 450000 rfl

/-- C4: applying `checkAffordability` to an empty listing collection
returns an empty result collection rather than failing. -/
theorem checkAffordability_empty_input (b : ℚ) :
    checkAffordability b [] = [] := rfl

/-- C6: `computeBudget` and `checkAffordability` are deterministic — two
calls on identical inputs give identical outputs. -/
theorem budget_affordability_deterministic :
    (∀ (msr : ℚ) (i₁ i₂ : BudgetInput), i₁ = i₂ →
      computeBudget msr i₁ = computeBudget msr i₂) ∧
    ∀ (b₁ b₂ : ℚ) (L₁ L₂ : List ListingIn), b₁ = b₂ → L₁ = L₂ →
      checkAffordability b₁ L₁ = checkAffordability b₂ L₂ := by
  constructor
  · intro msr i₁ i₂ h
    rw [h]
  · intro b₁ b₂ L₁ L₂ hb hL
    rw [hb, hL]

/-- Witness for C6 at concrete inputs. -/
theorem budget_affordability_deterministic_witness :
    computeBudget (3/10)
        { household_income := some 9000, cash_savings := some 50000,
          cpf_savings := some 120000 } =
      computeBudget (3/10)
        { household_income := some 9000, cash_savings := some 50000,
          cpf_savings := some 120000 } ∧
    checkAffordability 500000 [{ name := "A", price := some 450000 }] =
      checkAffordability 500000 [{ name := "A", price := some 450000 }] :=
  ⟨budget_affordability_deterministic.1 (3/10) _ _ rfl,
   budget_affordability_deterministic.2 500000 500000 _ _ rfl rfl⟩

/-- C7: the client-side orchestration is budget → cost-estimate →
affordability: a results-page trace is empty or begins with the budget
request; the `checkAffordability` callback emits at most the
cost-estimates request followed by the affordability request, whose
listing set is exactly the estimates with a numeric `estimatedPrice`; and
without a computed total budget the auto-run effect issues nothing. -/
theorem orchestration_order :
    (∀ (hbf : Bool) (br : Option ℚ) (har loading : Bool) (btos : List SelectedBTO)
        (est : List Estimate) (sr : List AffordabilityResult) (st : CardState),
      resultsPageTrace hbf br har loading btos est sr st = [] ∨
        ∃ tl, resultsPageTrace hbf br har loading btos est sr st =
          ReqEvent.budgetReq :: tl) ∧
    (∀ (tb : Option ℚ) (btos : List SelectedBTO) (est : List Estimate)
        (sr : List AffordabilityResult) (st : CardState),
      (checkAffordabilityUI tb btos est sr st).2 = [] ∨
        (checkAffordabilityUI tb btos est sr st).2 = [ReqEvent.costEstimatesReq btos] ∨
        (checkAffordabilityUI tb btos est sr st).2 =
          [ReqEvent.costEstimatesReq btos,
           ReqEvent.affordabilityReq (tb.getD 0) (numericEstimates est)]) ∧
    ∀ (har loading : Bool) (btos : List SelectedBTO) (est : List Estimate)
        (sr : List AffordabilityResult) (st : CardState),
      autoRunRequests none har loading btos est sr st = [] := by
  refine ⟨?_, ?_, ?_⟩
  · intro hbf br har loading btos est sr st
    cases hbf with
    | false =>
      left
      simp [resultsPageTrace, autoRunRequests]
    | true =>
      right
      exact ⟨_, rfl⟩
  · intro tb btos est sr st
    cases h1 : jsTruthyNum tb with
    | false =>
      left
      simp [checkAffordabilityUI, h1]
    | true =>
      cases h2 : btos.isEmpty with
      | true =>
        left
        simp [checkAffordabilityUI, h1, h2]
      | false =>
        cases h3 : (numericEstimates est).isEmpty with
        | true =>
          right; left
          simp [checkAffordabilityUI, h1, h2, h3]
        | false =>
          right; right
          simp [checkAffordabilityUI, h1, h2, h3]
  · intro har loading btos est sr st
    rfl

/-- Witness for C7 (the universally quantified statement has no
hypotheses; this records a concrete instance). -/
theorem orchestration_order_witness :
    (resultsPageTrace true (some 600000) false false [{ project := "Yishun", flatType := "3-Room" }]
        [{ projectLocation := "Yishun", flatType := "3-Room", estimatedPrice := some 450000 }]
        [] { isLoading := false, error := none, results := none } = [] ∨
      ∃ tl, resultsPageTrace true (some 600000) false false
          [{ project := "Yishun", flatType := "3-Room" }]
          [{ projectLocation := "Yishun", flatType := "3-Room", estimatedPrice := some 450000 }]
          [] { isLoading := false, error := none, results := none } =
        ReqEvent.budgetReq :: tl) ∧
    autoRunRequests none false false [{ project := "Yishun", flatType := "3-Room" }]
        [] [] { isLoading := false, error := none, results := none } = [] :=
  ⟨orchestration_order.1 true (some 600000) false false _ _ _ _,
   orchestration_order.2.2 false false _ _ _ _⟩

/-- C8: when `totalBudget` is `undefined` or `0`, or the selected BTO list
is empty, the frontend `checkAffordability` issues no network request,
sets an error message, and leaves `results` (and `isLoading`)
unchanged. -/
theorem checkAffordabilityUI_error_branch (tb : Option ℚ) (btos : List SelectedBTO)
    (est : List Estimate) (sr : List AffordabilityResult) (st : CardState)
    (h : tb = none ∨ tb = some 0 ∨ btos = []) :
    (checkAffordabilityUI tb btos est sr st).2 = [] ∧
    (checkAffordabilityUI tb btos est sr st).1.results = st.results ∧
    (checkAffordabilityUI tb btos est sr st).1.isLoading = st.isLoading ∧
    ∃ msg, (checkAffordabilityUI tb btos est sr st).1.error = some msg := by
  rcases h with h | h | h
  · subst h
    exact ⟨rfl, rfl, rfl, _, rfl⟩
  · subst h
    simp [checkAffordabilityUI, jsTruthyNum]
  · subst h
    cases h1 : jsTruthyNum tb with
    | false => simp [checkAffordabilityUI, h1]
    | true => simp [checkAffordabilityUI, h1]

/-- Witness for C8 with an undefined budget. -/
theorem checkAffordabilityUI_error_branch_witness :
    (checkAffordabilityUI none [{ project := "Yishun", flatType := "3-Room" }] [] []
        { isLoading := false, error := none, results := none }).2 = [] ∧
    (checkAffordabilityUI none [{ project := "Yishun", flatType := "3-Room" }] [] []
        { isLoading := false, error := none, results := none }).1.results =
      ({ isLoading := false, error := none, results := none } : CardState).results ∧
    (checkAffordabilityUI none [{ project := "Yishun", flatType := "3-Room" }] [] []
        { isLoading := false, error := none, results := none }).1.isLoading =
      ({ isLoading := false, error := none, results := none } : CardState).isLoading ∧
    ∃ msg, (checkAffordabilityUI none [{ project := "Yishun", flatType := "3-Room" }] [] []
        { isLoading := false, error := none, results := none }).1.error = some msg :=
  checkAffordabilityUI_error_branch none [{ project := "Yishun", flatType := "3-Room" }] [] []
    { isLoading := false, error := none, results := none } (Or.inl rfl)

/-- A non-budget-change event never clears an engaged auto-run guard and
never fires the auto-run trigger. -/
theorem cardStep_guard_mono (s : CardMachine) (e : CardEvent)
    (he : isBudgetChange e = false) (h : s.hasAutoRun = true) :
    (cardStep s e).hasAutoRun = true ∧ (cardStep s e).fired = s.fired := by
  cases e with
  | budgetChanged b => simp [isBudgetChange] at he
  | autoRunTick =>
    have hc : autoRunCond s = false := by simp [autoRunCond, h]
    simp [cardStep, hc, h]
  | addBTO x => exact ⟨h, rfl⟩
  | removeBTO i => exact ⟨h, rfl⟩
  | finishLoad => exact ⟨h, rfl⟩

/-- With the auto-run guard engaged, a budget-change-free run never fires
again. -/
theorem cardRun_guard_engaged (evs : List CardEvent) : ∀ (s : CardMachine),
    (∀ e ∈ evs, isBudgetChange e = false) → s.hasAutoRun = true →
    (cardRun s evs).hasAutoRun = true ∧ (cardRun s evs).fired = s.fired := by
  induction evs with
  | nil =>
    intro s _ h
    exact ⟨h, rfl⟩
  | cons e es ih =>
    intro s hnb h
    have he := hnb e (List.mem_cons_self e es)
    have hes : ∀ x ∈ es, isBudgetChange x = false :=
      fun x hx => hnb x (List.mem_cons_of_mem e hx)
    obtain ⟨h1, h2⟩ := cardStep_guard_mono s e he h
    obtain ⟨h3, h4⟩ := ih (cardStep s e) hes h1
    exact ⟨h3, h4.trans h2⟩

/-- A non-budget-change step either leaves the fire counter and the guard
alone, or fires once and engages the guard. -/
theorem cardStep_fired_cases (s : CardMachine) (e : CardEvent)
    (he : isBudgetChange e = false) :
    ((cardStep s e).fired = s.fired ∧ (cardStep s e).hasAutoRun = s.hasAutoRun) ∨
      ((cardStep s e).fired = s.fired + 1 ∧ (cardStep s e).hasAutoRun = true) := by
  cases e with
  | budgetChanged b => simp [isBudgetChange] at he
  | autoRunTick =>
    cases hc : autoRunCond s with
    | false =>
      left
      simp [cardStep, hc]
    | true =>
      right
      simp [cardStep, hc]
  | addBTO x => left; exact ⟨rfl, rfl⟩
  | removeBTO i => left; exact ⟨rfl, rfl⟩
  | finishLoad => left; exact ⟨rfl, rfl⟩

/-- Along a budget-change-free run the fire counter grows by at most
one. -/
theorem cardRun_fired_le (evs : List CardEvent) : ∀ (s : CardMachine),
    (∀ e ∈ evs, isBudgetChange e = false) →
    (cardRun s evs).fired ≤ s.fired + 1 := by
  induction evs with
  | nil =>
    intro s _
    exact Nat.le_succ s.fired
  | cons e es ih =>
    intro s hnb
    have he := hnb e (List.mem_cons_self e es)
    have hes : ∀ x ∈ es, isBudgetChange x = false :=
      fun x hx => hnb x (List.mem_cons_of_mem e hx)
    show (cardRun (cardStep s e) es).fired ≤ s.fired + 1
    rcases cardStep_fired_cases s e he with ⟨h1, _⟩ | ⟨h1, h2⟩
    · have := ih (cardStep s e) hes
      rw [h1] at this
      exact this
    · obtain ⟨_, h4⟩ := cardRun_guard_engaged es (cardStep s e) hes h2
      rw [h4, h1]

/-- C9: for a fixed `totalBudget` the auto-run effect fires at most once:
along any event sequence without a budget change the fire counter grows by
at most one and an engaged `hasAutoRun` guard stays engaged with no
further fire; firing engages the guard, and only a budget change resets
it. -/
theorem autoRun_at_most_once (s : CardMachine) (evs : List CardEvent)
    (hnb : ∀ e ∈ evs, isBudgetChange e = false) :
    (cardRun s evs).fired ≤ s.fired + 1 ∧
    (s.hasAutoRun = true → (cardRun s evs).fired = s.fired ∧
      (cardRun s evs).hasAutoRun = true) ∧
    (autoRunCond s = true →
      (cardStep s CardEvent.autoRunTick).hasAutoRun = true ∧
      (cardStep s CardEvent.autoRunTick).fired = s.fired + 1) ∧
    ∀ b, (cardStep s (CardEvent.budgetChanged b)).hasAutoRun = false := by
  refine ⟨cardRun_fired_le evs s hnb, ?_, ?_, fun b => rfl⟩
  · intro h
    obtain ⟨h1, h2⟩ := cardRun_guard_engaged evs s hnb h
    exact ⟨h2, h1⟩
  · intro hc
    simp [cardStep, hc]

/-- Witness for C9 on a concrete state and a trace with two auto-run
ticks and no budget change. -/
theorem autoRun_at_most_once_witness :
    (cardRun
        { totalBudget := some 600000, selectedBTOs := [{ project := "Yishun", flatType := "3-Room" }]
          hasAutoRun := false, loading := false, error := none, results := none, fired := 0 }
        [CardEvent.autoRunTick, CardEvent.finishLoad, CardEvent.autoRunTick]).fired ≤ 0 + 1 :=
  (autoRun_at_most_once
    { totalBudget := some 600000, selectedBTOs := [{ project := "Yishun", flatType := "3-Room" }]
      hasAutoRun := false, loading := false, error := none, results := none, fired := 0 }
    [CardEvent.autoRunTick, CardEvent.finishLoad, CardEvent.autoRunTick]
    (by intro e he; fin_cases he <;> rfl)).1

/-- The index-of-first-occurrence filter produces a duplicate-free
list. -/
theorem jsDedup_nodup (l : List String) : (jsDedup l).Nodup := by
  have henum : l.enum.Nodup := by
    have h1 : (l.enum.map Prod.fst).Nodup := by
      rw [List.enum_map_fst]
      exact List.nodup_range _
    exact List.Nodup.of_map _ h1
  refine List.Nodup.map_on ?_ (henum.filter _)
  intro p hp q hq hpq
  have hp2 : l.indexOf p.2 = p.1 := by
    have := (List.mem_filter.mp hp).2
    simpa using this
  have hq2 : l.indexOf q.2 = q.1 := by
    have := (List.mem_filter.mp hq).2
    simpa using this
  have hfst : p.1 = q.1 := by
    rw [← hp2, ← hq2, hpq]
  exact Prod.ext hfst hpq

/-- C10: `normalizeFlatTypes` always returns a duplicate-free list whose
every element is one of the five recognised flat types, and an undefined
or empty input yields the empty list. -/
theorem normalizeFlatTypes_nodup_allowed :
    (∀ s : Option String, (normalizeFlatTypes s).Nodup ∧
      ∀ t ∈ normalizeFlatTypes s, t ∈ allowedFlatTypes) ∧
    normalizeFlatTypes none = [] ∧ normalizeFlatTypes (some "") = [] := by
  refine ⟨?_, rfl, by simp [normalizeFlatTypes]⟩
  intro s
  match s with
  | none => simp [normalizeFlatTypes]
  | some str =>
    by_cases h : str = ""
    · subst h
      simp [normalizeFlatTypes]
    · have hne : normalizeFlatTypes (some str) =
          (jsDedup (((splitOnComma str.toList).map fun cs =>
            String.mk (trimChars cs)).map normToken)).filter
            (fun t => allowedFlatTypes.contains t) := by
        simp [normalizeFlatTypes, h]
      constructor
      · rw [hne]
        exact (jsDedup_nodup _).filter _
      · intro t ht
        rw [hne] at ht
        have := (List.mem_filter.mp ht).2
        simpa using this

/-- Witness for C10 on a concrete input (discharging the membership
hypothesis by evaluation). -/
theorem normalizeFlatTypes_nodup_allowed_witness :
    (normalizeFlatTypes (some "2-room, 2 room, executive")).Nodup ∧
    "2-Room Flexi" ∈ allowedFlatTypes ∧
    normalizeFlatTypes none = [] ∧ normalizeFlatTypes (some "") = [] :=
  ⟨(normalizeFlatTypes_nodup_allowed.1 (some "2-room, 2 room, executive")).1,
   (normalizeFlatTypes_nodup_allowed.1 (some "2-room, 2 room, executive")).2
     "2-Room Flexi" (by decide),
   normalizeFlatTypes_nodup_allowed.2.1,
   normalizeFlatTypes_nodup_allowed.2.2⟩

end AgentBTO
